import Mathlib

/-!
Shallow embedding of the puzzle-vault import pipeline and agent scheduler.

The definitions below are transcribed from the repository sources:
  * `src/importer/processor.py` — `FileProcessor` (`_find_ready_pairs`,
    `_process_one`, `_process_source`, `_move_to_puzzles`, `_move_to_errors`);
  * `src/shared/models/puzzle.py` — the `Puzzle` model and its
    `(source_id, file_hash)` uniqueness constraint;
  * `src/shared/models/source.py` — `Source.folder_name`, `Source.next_run_at`;
  * `src/agents/scheduler.py` — `AgentScheduler._maybe_queue_task`,
    `AgentScheduler._queue_task`, `AgentScheduler._check_schedules`.

A source's directory tree is modelled as three lists of named files
(`import/`, `puzzles/`, `errors/`); the catalog table as a list of rows;
external libraries (`puz.read`, `json.load`, `hashlib.sha256`,
preview generation) as function parameters collected in `Env`.
Machine-level details (bytes) are represented by `String` contents.
-/

namespace PuzzleVault

/-- One file in a directory: a name and its byte content (bytes modelled as
a `String`). -/
structure FileEntry where
  name : String
  content : String
deriving Repr, DecidableEq

/-- The on-disk tree of a single source, rooted at
`<data_dir>/<folder_name>/`: the `import/`, `puzzles/` and `errors/`
sub-directories. -/
structure SourceFS where
  importDir : List FileEntry
  puzzlesDir : List FileEntry
  errorsDir : List FileEntry
deriving Repr, DecidableEq

/-- Read a file's content by name (`open(path)`): `none` when the file does
not exist. -/
def lookupFile (dir : List FileEntry) (n : String) : Option String :=
  (dir.find? (fun f => f.name == n)).map (fun f => f.content)

/-- Test whether a file exists in a directory (`Path.exists`). -/
def existsFile (dir : List FileEntry) (n : String) : Bool :=
  dir.any (fun f => f.name == n)

/-- Remove a file by name (`Path.unlink`, or the source side of
`shutil.move`). -/
def removeFile (dir : List FileEntry) (n : String) : List FileEntry :=
  dir.filter (fun f => f.name != n)

/-- Create or overwrite a file (`write_text`, or the destination side of
`shutil.move`, which replaces an existing destination). -/
def putFile (dir : List FileEntry) (n c : String) : List FileEntry :=
  removeFile dir n ++ [⟨n, c⟩]

/-- Python truthiness of an optional string: `None` and `""` are falsy. -/
def pyTruthy : Option String → Bool
  | none => false
  | some s => s != ""

/-- Python's `a or b` on optional strings: `b` when `a` is falsy. -/
def pyOr (a b : Option String) : Option String :=
  if pyTruthy a then a else b

/-- A calendar date, the result of `datetime.date` construction. -/
structure PDate where
  year : Nat
  month : Nat
  day : Nat
deriving Repr, DecidableEq

/-- Gregorian leap-year rule, as used by `datetime.date` validation. -/
def isLeapYear (y : Nat) : Bool :=
  (y % 4 == 0 && y % 100 != 0) || y % 400 == 0

/-- Number of days in a month, as used by `datetime.date` validation. -/
def daysInMonth (y m : Nat) : Nat :=
  if m == 2 then (if isLeapYear y then 29 else 28)
  else if m == 4 || m == 6 || m == 9 || m == 11 then 30
  else 31

/-- Numeric value of a decimal digit character, `none` on a non-digit. -/
def digitVal (c : Char) : Option Nat :=
  if c.isDigit then some (c.toNat - 48) else none

/-- Model of Python's `date.fromisoformat` on the `YYYY-MM-DD` form: parse
ten characters `dddd-dd-dd` and validate the calendar date (month 1–12, day
within the month, year at least `MINYEAR = 1`); `none` models the
`ValueError` raised on any other input. -/
def fromisoformat (s : String) : Option PDate :=
  match s.data with
  | [y1, y2, y3, y4, s1, m1, m2, s2, d1, d2] =>
    if s1 == '-' && s2 == '-' then
      match digitVal y1, digitVal y2, digitVal y3, digitVal y4,
            digitVal m1, digitVal m2, digitVal d1, digitVal d2 with
      | some a, some b, some c, some d, some e, some f, some g, some h =>
        let y := ((a * 10 + b) * 10 + c) * 10 + d
        let m := e * 10 + f
        let dy := g * 10 + h
        if 1 ≤ y && 1 ≤ m && m ≤ 12 && 1 ≤ dy && dy ≤ daysInMonth y m then
          some ⟨y, m, dy⟩
        else none
      | _, _, _, _, _, _, _, _ => none
    else none
  | _ => none

/-- Result of `puz.read` on a primary file: the fields `_process_one`
consults. -/
structure PuzData where
  title : Option String
  author : Option String
deriving Repr, DecidableEq

/-- Result of `json.load` on a metadata sidecar: the keys `_process_one`
reads via `metadata.get`. -/
structure MetaJson where
  puzzle_date : Option String
  title : Option String
  author : Option String
deriving Repr, DecidableEq

/-- External collaborators of the processor, as functions of file content:
`puzRead` models `puz.read` (`none` = parse exception), `jsonLoad` models
`json.load` (`none` = exception), `hashHex` models
`FileProcessor._calculate_file_hash` (streamed SHA-256 hex digest — an
arbitrary deterministic function of the bytes), `genPreview` models
`generate_preview_image` (`none` = exception, which `_move_to_puzzles`
swallows). -/
structure Env where
  puzRead : String → Option PuzData
  jsonLoad : String → Option MetaJson
  hashHex : String → String
  genPreview : String → Option String

/-- One row of the `puzzles` table (`src/shared/models/puzzle.py`), the
columns the import pipeline touches. -/
structure PuzzleRow where
  id : String
  source_id : String
  title : String
  author : Option String
  puzzle_date : PDate
  file_path : String
  file_hash : String
deriving Repr, DecidableEq

/-- The duplicate-detection query of `_process_one`:
`db.query(Puzzle).filter(source_id == sid, file_hash == h).first()`. -/
def findDup (catalog : List PuzzleRow) (sid h : String) : Option PuzzleRow :=
  catalog.find? (fun r => r.source_id == sid && r.file_hash == h)

/-- The storage-level uniqueness constraint `uq_source_file_hash` on
`(source_id, file_hash)`: an insert commits only when no existing row
matches. -/
def violatesUnique (catalog : List PuzzleRow) (sid h : String) : Bool :=
  catalog.any (fun r => r.source_id == sid && r.file_hash == h)

/-- Number of catalog rows matching one `(source_id, file_hash)` pair, for
stating row-count properties of the pipeline. -/
def countMatching (catalog : List PuzzleRow) (sid h : String) : Nat :=
  (catalog.filter (fun r => r.source_id == sid && r.file_hash == h)).length

/-- Recognition of a primary file by `imports_dir.glob("*.puz")`: the name
ends in `.puz` and is not a hidden (dot-leading) file, which `glob`
skips. (Spelled over the character list so that it evaluates by kernel
reduction.) -/
def isPuzName (n : String) : Bool :=
  ".puz".data.isSuffixOf n.data && !(".".data.isPrefixOf n.data)

/-- Drop the last `k` characters of a string (`String.dropRight`, spelled
over the character list). -/
def strDropRight (s : String) (k : Nat) : String :=
  ⟨s.data.take (s.data.length - k)⟩

/-- The sidecar name `puz_file.with_suffix(".meta.json")`: drop the final
`.puz` suffix and append `.meta.json`. -/
def metaNameOf (n : String) : String :=
  strDropRight n 4 ++ ".meta.json"

/-- Model of `FileProcessor._find_ready_pairs`: every `.puz` file whose
`.meta.json` sidecar exists, paired with that sidecar. -/
def findReadyPairs (importDir : List FileEntry) : List (String × String) :=
  importDir.filterMap (fun f =>
    if isPuzName f.name && existsFile importDir (metaNameOf f.name) then
      some (f.name, metaNameOf f.name)
    else none)

/-- Split a character list at every occurrence of `c` (the character-list
counterpart of `String.splitOn`). -/
def splitOnChar (c : Char) : List Char → List (List Char)
  | [] => [[]]
  | x :: xs =>
    let r := splitOnChar c xs
    if x == c then [] :: r
    else
      match r with
      | [] => [[x]]
      | h :: t => (x :: h) :: t

/-- Join character lists with separator `c` (the character-list counterpart
of `String.intercalate`). -/
def joinWithChar (c : Char) : List (List Char) → List Char
  | [] => []
  | [x] => x
  | x :: xs => x ++ c :: joinWithChar c xs

/-- Model of `PurePath.stem`: the file name with its final suffix removed
(a name with no dot, or only a leading dot, has no suffix). -/
def pathStem (n : String) : String :=
  match splitOnChar '.' n.data with
  | [] => n
  | [_] => n
  | ps =>
    let st := joinWithChar '.' ps.dropLast
    if st.isEmpty then n else ⟨st⟩

/-- The final stored file path `str(dest_puz)` of a relocated primary file,
relative to the configured data root. -/
def finalPathOf (folder puzzleId : String) : String :=
  folder ++ "/puzzles/" ++ puzzleId ++ ".puz"

/-- Model of `FileProcessor._move_to_puzzles`: rename the primary file and
sidecar into `puzzles/` as `<id>.puz` and `<id>.meta.json`, attempt a
best-effort preview image (a failure is swallowed), and return the final
primary path. A missing file makes `shutil.move` raise, modelled by
`Except.error`. -/
def moveToPuzzles (env : Env) (folder puzName metaName puzzleId : String)
    (fs : SourceFS) : Except String (SourceFS × String) :=
  match lookupFile fs.importDir puzName, lookupFile fs.importDir metaName with
  | some pc, some mc =>
    let fs1 : SourceFS :=
      { fs with
        importDir := removeFile (removeFile fs.importDir puzName) metaName,
        puzzlesDir :=
          putFile (putFile fs.puzzlesDir (puzzleId ++ ".puz") pc)
            (puzzleId ++ ".meta.json") mc }
    let fs2 : SourceFS :=
      match env.genPreview pc with
      | some pv =>
        { fs1 with puzzlesDir := putFile fs1.puzzlesDir (puzzleId ++ ".preview.png") pv }
      | none => fs1
    .ok (fs2, finalPathOf folder puzzleId)
  | _, _ => .error "file move failed"

/-- Quarantine destination name for the primary file:
`errors_dir / f"{base_name}_{timestamp}.puz"`. -/
def errDestPuz (puzName ts : String) : String :=
  pathStem puzName ++ "_" ++ ts ++ ".puz"

/-- Quarantine destination name for the sidecar:
`errors_dir / f"{base_name}_{timestamp}.meta.json"`. -/
def errDestMeta (puzName ts : String) : String :=
  pathStem puzName ++ "_" ++ ts ++ ".meta.json"

/-- Quarantine diagnostic file name:
`errors_dir / f"{base_name}_{timestamp}.error.txt"`. -/
def errDestTxt (puzName ts : String) : String :=
  pathStem puzName ++ "_" ++ ts ++ ".error.txt"

/-- Model of `FileProcessor._move_to_errors`: move whichever of the primary
file and sidecar still exist — each checked independently — into the
source's `errors/` directory under `<stem>_<timestamp>` names, and write a
`<stem>_<timestamp>.error.txt` diagnostic with the error message. -/
def moveToErrors (puzName metaName errMsg ts : String) (fs : SourceFS) : SourceFS :=
  let destPuz := errDestPuz puzName ts
  let destMeta := errDestMeta puzName ts
  let errName := errDestTxt puzName ts
  let fs1 :=
    match lookupFile fs.importDir puzName with
    | some pc =>
      { fs with importDir := removeFile fs.importDir puzName,
                errorsDir := putFile fs.errorsDir destPuz pc }
    | none => fs
  let fs2 :=
    match lookupFile fs1.importDir metaName with
    | some mc =>
      { fs1 with importDir := removeFile fs1.importDir metaName,
                 errorsDir := putFile fs1.errorsDir destMeta mc }
    | none => fs1
  { fs2 with errorsDir := putFile fs2.errorsDir errName errMsg }

/-- How one `_process_one` call ends: `dupDeleted` is the confirmed
duplicate no-op return, `created` the normal completion with the new row's
generated identity, `raised` the exception that propagates to the caller
(carrying `str(e)`). -/
inductive ProcOutcome where
  | dupDeleted : ProcOutcome
  | created : String → ProcOutcome
  | raised : String → ProcOutcome
deriving Repr, DecidableEq

/-- The state a processing pass acts on: one source's directory tree and
the catalog table. -/
structure ProcState where
  fs : SourceFS
  catalog : List PuzzleRow
deriving Repr, DecidableEq

/-- Model of `FileProcessor._process_one`, mirroring the source order of
operations: load and parse the sidecar JSON, require a truthy
`puzzle_date`, parse the primary file with `puz.read`, compute the content
hash, run the duplicate check; on a hit delete both import files and
return (no catalog mutation); otherwise parse the ISO date (only now),
insert the row with an empty `file_path` placeholder and commit — the
commit fails with a constraint violation when the database already holds a
matching `(source_id, file_hash)` row, including the rows `race` committed
by a concurrent pass after the duplicate check — then move the files via
`_move_to_puzzles` and commit the final path. `genId` is the generated
UUID of the inserted row. -/
def processOne (env : Env) (sid folder puzName metaName genId : String)
    (race : List PuzzleRow) (st : ProcState) : ProcState × ProcOutcome :=
  match lookupFile st.fs.importDir metaName with
  | none => (st, .raised "meta file missing")
  | some metaText =>
    match env.jsonLoad metaText with
    | none => (st, .raised "json parse error")
    | some metadata =>
      if !pyTruthy metadata.puzzle_date then
        (st, .raised "Missing required field: puzzle_date")
      else
        match lookupFile st.fs.importDir puzName with
        | none => (st, .raised "puz file missing")
        | some puzBytes =>
          match env.puzRead puzBytes with
          | none => (st, .raised "puz parse error")
          | some puzzleFile =>
            let title :=
              (pyOr metadata.title (pyOr puzzleFile.title (some "Untitled"))).getD "Untitled"
            let author := pyOr metadata.author puzzleFile.author
            let fileHash := env.hashHex puzBytes
            match findDup st.catalog sid fileHash with
            | some _ =>
              let dir1 :=
                if existsFile st.fs.importDir puzName then
                  removeFile st.fs.importDir puzName
                else st.fs.importDir
              let dir2 :=
                if existsFile dir1 metaName then removeFile dir1 metaName else dir1
              ({ st with fs := { st.fs with importDir := dir2 } }, .dupDeleted)
            | none =>
              match fromisoformat (metadata.puzzle_date.getD "") with
              | none => (st, .raised "Invalid isoformat string")
              | some pdate =>
                let dbAtCommit := st.catalog ++ race
                if violatesUnique dbAtCommit sid fileHash then
                  ({ st with catalog := dbAtCommit },
                   .raised "UNIQUE constraint failed: uq_source_file_hash")
                else
                  let row0 : PuzzleRow :=
                    ⟨genId, sid, title, author, pdate, "", fileHash⟩
                  match moveToPuzzles env folder puzName metaName genId st.fs with
                  | .error e =>
                    ({ fs := st.fs, catalog := dbAtCommit ++ [row0] }, .raised e)
                  | .ok (fs', finalPath) =>
                    ({ fs := fs',
                       catalog := dbAtCommit ++ [{ row0 with file_path := finalPath }] },
                     .created genId)

/-- One iteration of the `_process_source` loop: process the candidate at
batch position `p.1` with file pair `p.2`, routing a raised exception to
`_move_to_errors`. -/
def processStep (env : Env) (sid folder : String) (ids tss : Nat → String)
    (races : Nat → List PuzzleRow) (st' : ProcState)
    (p : Nat × (String × String)) : ProcState :=
  match processOne env sid folder p.2.1 p.2.2 (ids p.1) (races p.1) st' with
  | (st'', ProcOutcome.raised e) =>
    { st'' with fs := moveToErrors p.2.1 p.2.2 e (tss p.1) st''.fs }
  | (st'', _) => st''

/-- Model of `FileProcessor._process_source`: enumerate the ready pairs,
process each one, and route every raised exception to `_move_to_errors`.
`ids`, `tss` and `races` give the generated UUID, quarantine timestamp and
concurrently committed rows for the candidate at each batch position. -/
def processSource (env : Env) (sid folder : String) (ids tss : Nat → String)
    (races : Nat → List PuzzleRow) (st : ProcState) : ProcState :=
  (findReadyPairs st.fs.importDir).enum.foldl
    (processStep env sid folder ids tss races) st

/-- Refined model of `_move_to_errors` in which each filesystem write
(`shutil.move`, `write_text`) can fail with an I/O error, decided by the
oracle `moveOk` on the destination name; the Python body contains no
exception handling, so a failing operation raises out of the handler. -/
def moveToErrorsChecked (moveOk : String → Bool) (puzName metaName errMsg ts : String)
    (fs : SourceFS) : Except String SourceFS :=
  let destPuz := errDestPuz puzName ts
  let destMeta := errDestMeta puzName ts
  let errName := errDestTxt puzName ts
  match lookupFile fs.importDir puzName with
  | some pc =>
    if !moveOk destPuz then .error "quarantine move failed"
    else
      let fs1 : SourceFS :=
        { fs with importDir := removeFile fs.importDir puzName,
                  errorsDir := putFile fs.errorsDir destPuz pc }
      match lookupFile fs1.importDir metaName with
      | some mc =>
        if !moveOk destMeta then .error "quarantine move failed"
        else
          let fs2 : SourceFS :=
            { fs1 with importDir := removeFile fs1.importDir metaName,
                       errorsDir := putFile fs1.errorsDir destMeta mc }
          if !moveOk errName then .error "quarantine write failed"
          else .ok { fs2 with errorsDir := putFile fs2.errorsDir errName errMsg }
      | none =>
        if !moveOk errName then .error "quarantine write failed"
        else .ok { fs1 with errorsDir := putFile fs1.errorsDir errName errMsg }
  | none =>
    match lookupFile fs.importDir metaName with
    | some mc =>
      if !moveOk destMeta then .error "quarantine move failed"
      else
        let fs1 : SourceFS :=
          { fs with importDir := removeFile fs.importDir metaName,
                    errorsDir := putFile fs.errorsDir destMeta mc }
        if !moveOk errName then .error "quarantine write failed"
        else .ok { fs1 with errorsDir := putFile fs1.errorsDir errName errMsg }
    | none =>
      if !moveOk errName then .error "quarantine write failed"
      else .ok { fs with errorsDir := putFile fs.errorsDir errName errMsg }

/-- One iteration of the `_process_source` loop over the fallible
quarantine handler: once an exception has escaped (`some e`), the loop body
is never reached again for later candidates. -/
def processStepChecked (env : Env) (moveOk : String → Bool) (sid folder : String)
    (ids tss : Nat → String) (races : Nat → List PuzzleRow)
    (acc : ProcState × Option String) (p : Nat × (String × String)) :
    ProcState × Option String :=
  match acc with
  | (st', some e) => (st', some e)
  | (st', none) =>
    match processOne env sid folder p.2.1 p.2.2 (ids p.1) (races p.1) st' with
    | (st'', ProcOutcome.raised e) =>
      match moveToErrorsChecked moveOk p.2.1 p.2.2 e (tss p.1) st''.fs with
      | .ok fs2 => ({ st'' with fs := fs2 }, none)
      | .error e2 => (st'', some e2)
    | (st'', _) => (st'', none)

/-- Refined model of `_process_source` over the fallible quarantine
handler: the `except` block around `_process_one` calls `_move_to_errors`
with no further protection, so an exception raised while quarantining
propagates out of the batch loop; the second component records that
escaped exception (`none` when the whole batch ran). -/
def processSourceChecked (env : Env) (moveOk : String → Bool) (sid folder : String)
    (ids tss : Nat → String) (races : Nat → List PuzzleRow) (st : ProcState) :
    ProcState × Option String :=
  (findReadyPairs st.fs.importDir).enum.foldl
    (processStepChecked env moveOk sid folder ids tss races) (st, none)

/-- The columns of a `Source` row that path resolution reads
(`src/shared/models/source.py`). -/
structure SourceRec where
  id : String
  short_code : Option String
deriving Repr, DecidableEq

/-- Model of the `Source.folder_name` property:
`self.short_code if self.short_code else self.id` — Python truthiness, so
an empty short code also falls back to the id. -/
def folder_name (s : SourceRec) : String :=
  if pyTruthy s.short_code then s.short_code.getD s.id else s.id

/-- Updating a source's `short_code` column (the web layer's source-update
handler assigns the field); no other table is touched. -/
def setShortCode (s : SourceRec) (c : String) : SourceRec :=
  { s with short_code := some c }

/-- The columns of a `Source` row that the scheduler reads; times are
modelled as seconds (`Int`). -/
structure SchedSource where
  id : String
  schedule_enabled : Bool
  agent_enabled : Bool
  schedule_interval_hours : Option Int
  last_scheduled_run_at : Option Int
deriving Repr, DecidableEq

/-- One row of the `agent_tasks` queue, the columns the scheduler touches. -/
structure AgentTaskRow where
  id : String
  source_id : String
  status : String
deriving Repr, DecidableEq

/-- Python truthiness of the nullable integer interval: `None` and `0` are
falsy. -/
def intervalTruthy : Option Int → Bool
  | none => false
  | some h => h != 0

/-- Model of the `Source.next_run_at` property: `None` unless scheduling is
enabled with a truthy interval; `now` when the source never ran; otherwise
the last run plus the interval in hours. -/
def next_run_at (s : SchedSource) (now : Int) : Option Int :=
  if !s.schedule_enabled || !intervalTruthy s.schedule_interval_hours then none
  else
    match s.last_scheduled_run_at with
    | none => some now
    | some last => some (last + 3600 * s.schedule_interval_hours.getD 0)

/-- The existing-task query of `_maybe_queue_task`: a task for this source
whose status is `pending` or `running`. -/
def hasActiveTask (tasks : List AgentTaskRow) (sid : String) : Bool :=
  tasks.any (fun t => t.source_id == sid && (t.status == "pending" || t.status == "running"))

/-- Model of `AgentScheduler._queue_task`: append a `pending` task (with
generated id `newId`) and stamp `last_scheduled_run_at` with the check
time. -/
def queueTask (s : SchedSource) (now : Int) (tasks : List AgentTaskRow)
    (newId : String) : SchedSource × List AgentTaskRow :=
  ({ s with last_scheduled_run_at := some now }, tasks ++ [⟨newId, s.id, "pending"⟩])

/-- Model of `AgentScheduler._maybe_queue_task`: a never-run source queues
immediately; otherwise skip when not yet due, when the 1-minute cooldown
since the last run has not elapsed, or when a pending/running task already
exists; else queue. (The Python timezone normalisation of `last_run` is
the identity in this integer time model.) -/
def maybeQueueTask (s : SchedSource) (now : Int) (tasks : List AgentTaskRow)
    (newId : String) : SchedSource × List AgentTaskRow :=
  match s.last_scheduled_run_at with
  | none => queueTask s now tasks newId
  | some lastRun =>
    match next_run_at s now with
    | none => (s, tasks)
    | some nextRun =>
      if now < nextRun then (s, tasks)
      else if now - lastRun < 60 then (s, tasks)
      else if hasActiveTask tasks s.id then (s, tasks)
      else queueTask s now tasks newId

/-- Number of in-flight (pending or running) tasks of one source, for
stating the at-most-one-in-flight property. -/
def countActiveTasks (tasks : List AgentTaskRow) (sid : String) : Nat :=
  (tasks.filter
    (fun t => t.source_id == sid && (t.status == "pending" || t.status == "running"))).length

/-- Model of `AgentScheduler._check_schedules`: select the sources with
scheduling and agent enabled and a non-null interval, and run
`_maybe_queue_task` for each in turn, threading the task table; returns
the updated selected sources and the task table. -/
def checkSchedules (now : Int) (newIds : Nat → String) (sources : List SchedSource)
    (tasks : List AgentTaskRow) : List SchedSource × List AgentTaskRow :=
  let eligible := sources.filter
    (fun s => s.schedule_enabled && s.agent_enabled && s.schedule_interval_hours.isSome)
  eligible.enum.foldl
    (fun acc p =>
      let r := maybeQueueTask p.2 now acc.2 (newIds p.1)
      (acc.1 ++ [r.1], r.2))
    (([] : List SchedSource), tasks)

/-- A small concrete environment for evaluating the pipeline on closed
inputs: one recognised primary content `"PB"`, sidecar texts `"M1"`
(well-formed), `"MBAD"` (non-empty but malformed date) and `"MNODATE"`
(missing date). -/
def demoEnv : Env :=
  { puzRead := fun b => if b == "PB" then some ⟨some "PT", some "PA"⟩ else none,
    jsonLoad := fun t =>
      if t == "M1" then some ⟨some "2025-01-01", some "Test", none⟩
      else if t == "MBAD" then some ⟨some "not-a-date", some "Bad", none⟩
      else if t == "MNODATE" then some ⟨none, none, none⟩
      else none,
    hashHex := fun b => b ++ "#sha",
    genPreview := fun _ => none }

/-! ## Helper lemmas on the filesystem and catalog primitives -/

theorem lookupFile_putFile_self (d : List FileEntry) (n c : String) :
    lookupFile (putFile d n c) n = some c := by
  unfold lookupFile putFile removeFile
  rw [List.find?_append]
  have hnone : (d.filter (fun f => f.name != n)).find? (fun f => f.name == n) = none := by
    rw [List.find?_eq_none]
    intro f hf
    have := List.of_mem_filter hf
    simp only [bne_iff_ne, ne_eq, decide_eq_true_eq] at this
    simp [this]
  rw [hnone]
  simp

theorem find?_filter_of_imp {α : Type} (l : List α) (p q : α → Bool)
    (h : ∀ a, q a = true → p a = true) :
    (l.filter p).find? q = l.find? q := by
  induction l with
  | nil => rfl
  | cons a t ih =>
    by_cases hq : q a = true
    · have hp := h a hq
      rw [List.filter_cons, if_pos hp, List.find?_cons_of_pos _ hq,
        List.find?_cons_of_pos _ hq]
    · by_cases hp : p a = true
      · rw [List.filter_cons, if_pos hp, List.find?_cons_of_neg _ hq,
          List.find?_cons_of_neg _ hq]
        exact ih
      · rw [List.filter_cons, if_neg hp, List.find?_cons_of_neg _ hq]
        exact ih

theorem lookupFile_putFile_ne (d : List FileEntry) (n m c : String) (h : m ≠ n) :
    lookupFile (putFile d n c) m = lookupFile d m := by
  unfold lookupFile putFile removeFile
  rw [List.find?_append]
  rw [find?_filter_of_imp]
  · cases hfind : d.find? (fun f => f.name == m) with
    | none =>
      simp [Ne.symm h]
    | some f => rfl
  · intro a ha
    simp only [beq_iff_eq] at ha
    simp [ha, h]

theorem existsFile_removeFile_self (d : List FileEntry) (n : String) :
    existsFile (removeFile d n) n = false := by
  unfold existsFile removeFile
  rw [Bool.eq_false_iff]
  intro hany
  rw [List.any_eq_true] at hany
  obtain ⟨f, hf, hfn⟩ := hany
  have h1 := List.of_mem_filter hf
  simp only [bne_iff_ne, ne_eq, decide_eq_true_eq] at h1
  simp only [beq_iff_eq] at hfn
  exact h1 hfn

theorem existsFile_removeFile_of_not (d : List FileEntry) (n m : String)
    (h : existsFile d n = false) : existsFile (removeFile d m) n = false := by
  unfold existsFile at h ⊢
  unfold removeFile
  rw [Bool.eq_false_iff] at h ⊢
  intro hany
  rw [List.any_eq_true] at hany
  obtain ⟨f, hf, hfn⟩ := hany
  exact h (List.any_eq_true.mpr ⟨f, List.mem_of_mem_filter hf, hfn⟩)

theorem lookupFile_isSome_exists (d : List FileEntry) (n : String) :
    existsFile d n = (lookupFile d n).isSome := by
  unfold existsFile lookupFile
  induction d with
  | nil => rfl
  | cons a t ih =>
    by_cases ha : a.name = n
    · rw [List.find?_cons_of_pos _ (by simp [ha])]
      simp [List.any_cons, ha]
    · rw [List.find?_cons_of_neg _ (by simp [ha])]
      rw [List.any_cons]
      have hne : (a.name == n) = false := by simp [ha]
      rw [hne, Bool.false_or]
      exact ih

theorem countMatching_append (c1 c2 : List PuzzleRow) (sid h : String) :
    countMatching (c1 ++ c2) sid h = countMatching c1 sid h + countMatching c2 sid h := by
  unfold countMatching
  rw [List.filter_append, List.length_append]

theorem findDup_none_count_zero (cat : List PuzzleRow) (sid h : String)
    (hd : findDup cat sid h = none) : countMatching cat sid h = 0 := by
  unfold findDup at hd
  unfold countMatching
  rw [List.find?_eq_none] at hd
  rw [List.length_eq_zero, List.filter_eq_nil_iff]
  exact hd

theorem findDup_append_singleton (cat : List PuzzleRow) (row : PuzzleRow) (sid h : String)
    (hnone : findDup cat sid h = none)
    (hrow : (row.source_id == sid && row.file_hash == h) = true) :
    findDup (cat ++ [row]) sid h = some row := by
  unfold findDup at hnone ⊢
  rw [List.find?_append, hnone]
  simp [List.find?_cons_of_pos, hrow]

/-! ## C6 — readiness gating of the scanner -/

/-- C6: a file of a source's import directory is reported as a ready
candidate by `_find_ready_pairs` if and only if it is a `.puz` primary
file present in the directory whose same-base `.meta.json` sidecar is
simultaneously present; a lone primary or lone sidecar is never in the
ready list. -/
theorem scanner_ready_pair_iff (importDir : List FileEntry) (p m : String) :
    (p, m) ∈ findReadyPairs importDir ↔
      ((∃ c, FileEntry.mk p c ∈ importDir) ∧ isPuzName p = true ∧
        m = metaNameOf p ∧ existsFile importDir (metaNameOf p) = true) := by
  unfold findReadyPairs
  rw [List.mem_filterMap]
  constructor
  · rintro ⟨a, ha, hfa⟩
    split at hfa
    case isTrue hcond =>
      rw [Option.some.injEq, Prod.mk.injEq] at hfa
      obtain ⟨hname, hmeta⟩ := hfa
      rw [Bool.and_eq_true] at hcond
      subst hname
      refine ⟨⟨a.content, ?_⟩, hcond.1, hmeta.symm, hcond.2⟩
      exact ha
    case isFalse => exact absurd hfa (by simp)
  · rintro ⟨⟨c, hmem⟩, hp, hm, he⟩
    refine ⟨⟨p, c⟩, hmem, ?_⟩
    simp only [hp, he, Bool.and_self, if_true]
    rw [hm]

/-! ## C7 — scheduler cooldown -/

/-- C7: for a schedule-enabled source whose recorded last scheduled run
lies less than one minute before the check time, `_maybe_queue_task`
enqueues nothing on that check — whether or not the computed next-due time
has passed — returning the source and task table unchanged. -/
theorem scheduler_cooldown_blocks_enqueue (s : SchedSource) (now t : Int)
    (tasks : List AgentTaskRow) (newId : String)
    (hen : s.schedule_enabled = true)
    (hlast : s.last_scheduled_run_at = some t)
    (hord : t ≤ now) (hcool : now - t < 60) :
    maybeQueueTask s now tasks newId = (s, tasks) := by
  unfold maybeQueueTask
  rw [hlast]
  cases hnr : next_run_at s now with
  | none => rfl
  | some nextRun =>
    by_cases hlt : now < nextRun
    · simp [hlt]
    · simp [hlt, hcool]

/-- Witness for C7: a source with a 1-hour interval whose last run was 30
seconds before the check is not re-enqueued. -/
theorem scheduler_cooldown_blocks_enqueue_witness :
    maybeQueueTask ⟨"s1", true, true, some 1, some 0⟩ 30 [] "t1" =
      (⟨"s1", true, true, some 1, some 0⟩, []) :=
  scheduler_cooldown_blocks_enqueue ⟨"s1", true, true, some 1, some 0⟩ 30 0 [] "t1"
    rfl rfl (by decide) (by decide)

/-! ## C10 — first scheduled run bypasses cooldown and in-flight checks -/

/-- C10: for a schedule-enabled, agent-enabled source with an interval set
and no recorded last scheduled run, `_maybe_queue_task` (and hence the
scheduler's `_check_schedules` pass) queues a new pending task
unconditionally — the task table is extended even when it already holds a
pending task for that source, so the number of in-flight tasks for the
source grows by one and can reach two. -/
theorem scheduler_first_run_skips_guards (s : SchedSource) (now : Int)
    (tasks : List AgentTaskRow) (newId : String) (newIds : Nat → String)
    (hen : s.schedule_enabled = true) (hag : s.agent_enabled = true)
    (hint : s.schedule_interval_hours.isSome = true)
    (hlast : s.last_scheduled_run_at = none) :
    maybeQueueTask s now tasks newId =
      ({ s with last_scheduled_run_at := some now },
        tasks ++ [⟨newId, s.id, "pending"⟩]) ∧
    checkSchedules now newIds [s] tasks =
      ([{ s with last_scheduled_run_at := some now }],
        tasks ++ [⟨newIds 0, s.id, "pending"⟩]) ∧
    countActiveTasks (maybeQueueTask s now tasks newId).2 s.id =
      countActiveTasks tasks s.id + 1 := by
  have hq : ∀ nid, maybeQueueTask s now tasks nid =
      ({ s with last_scheduled_run_at := some now },
        tasks ++ [⟨nid, s.id, "pending"⟩]) := by
    intro nid
    unfold maybeQueueTask
    rw [hlast]
    rfl
  refine ⟨hq newId, ?_, ?_⟩
  · unfold checkSchedules
    simp only [List.filter_cons, List.filter_nil, hen, hag, hint, Bool.and_self,
      Bool.true_and, if_true]
    simp only [List.enum, List.enumFrom, List.foldl]
    rw [hq (newIds 0)]
    simp [hen, hag]
  · rw [hq newId]
    unfold countActiveTasks
    rw [List.filter_append, List.length_append]
    simp

/-- Witness for C10: a never-run source with a pending task already queued
gets a second pending task on the first scheduled check, leaving two
in-flight tasks. -/
theorem scheduler_first_run_skips_guards_witness :
    maybeQueueTask ⟨"s1", true, true, some 1, none⟩ 30 [⟨"t0", "s1", "pending"⟩] "t1" =
      (⟨"s1", true, true, some 1, some 30⟩,
        [⟨"t0", "s1", "pending"⟩, ⟨"t1", "s1", "pending"⟩]) ∧
    checkSchedules 30 (fun _ => "t1") [⟨"s1", true, true, some 1, none⟩]
        [⟨"t0", "s1", "pending"⟩] =
      ([⟨"s1", true, true, some 1, some 30⟩],
        [⟨"t0", "s1", "pending"⟩, ⟨"t1", "s1", "pending"⟩]) ∧
    countActiveTasks
        (maybeQueueTask ⟨"s1", true, true, some 1, none⟩ 30
          [⟨"t0", "s1", "pending"⟩] "t1").2 "s1" =
      countActiveTasks [⟨"t0", "s1", "pending"⟩] "s1" + 1 :=
  scheduler_first_run_skips_guards ⟨"s1", true, true, some 1, none⟩ 30
    [⟨"t0", "s1", "pending"⟩] "t1" (fun _ => "t1") rfl rfl rfl rfl

theorem append_ne_of_right_ne (a : String) {x y : String} (h : x ≠ y) :
    a ++ x ≠ a ++ y := by
  intro he
  apply h
  have hd := congrArg String.data he
  rw [String.data_append, String.data_append] at hd
  have hxy := List.append_cancel_left hd
  cases x; cases y; exact congrArg String.mk hxy

theorem append_ne_of_left_ne {x y : String} (a : String) (h : x ≠ y) :
    x ++ a ≠ y ++ a := by
  intro he
  apply h
  have hd := congrArg String.data he
  rw [String.data_append, String.data_append] at hd
  have hxy := List.append_cancel_right hd
  cases x; cases y; exact congrArg String.mk hxy

theorem lookupFile_removeFile_ne (d : List FileEntry) (n m : String) (h : m ≠ n) :
    lookupFile (removeFile d n) m = lookupFile d m := by
  unfold lookupFile removeFile
  rw [find?_filter_of_imp]
  intro a ha
  simp only [beq_iff_eq] at ha
  simp [ha, h]

theorem errDestPuz_ne_meta (pn ts : String) : errDestPuz pn ts ≠ errDestMeta pn ts := by
  unfold errDestPuz errDestMeta
  exact append_ne_of_right_ne _ (by decide)

theorem errDestPuz_ne_txt (pn ts : String) : errDestPuz pn ts ≠ errDestTxt pn ts := by
  unfold errDestPuz errDestTxt
  exact append_ne_of_right_ne _ (by decide)

theorem errDestMeta_ne_txt (pn ts : String) : errDestMeta pn ts ≠ errDestTxt pn ts := by
  unfold errDestMeta errDestTxt
  exact append_ne_of_right_ne _ (by decide)

/-! ## C4 — quarantine completeness -/

/-- C4: for any candidate routed to quarantine, `_move_to_errors` relocates
whichever of the primary file and sidecar still exist — each checked
independently — into the source's `errors/` directory under
timestamp-suffixed names (content preserved), writes the sibling
`.error.txt` diagnostic holding the error description, leaves neither file
in `import/`, and the timestamp suffix keeps the destination names of
failures quarantined at distinct timestamps distinct. -/
theorem quarantine_relocates_and_clears (fs : SourceFS) (pn mn msg ts ts2 : String)
    (hne : pn ≠ mn) (hts : ts ≠ ts2) :
    existsFile (moveToErrors pn mn msg ts fs).importDir pn = false ∧
    existsFile (moveToErrors pn mn msg ts fs).importDir mn = false ∧
    ((lookupFile fs.importDir pn).isSome = true →
      lookupFile (moveToErrors pn mn msg ts fs).errorsDir (errDestPuz pn ts) =
        lookupFile fs.importDir pn) ∧
    ((lookupFile fs.importDir mn).isSome = true →
      lookupFile (moveToErrors pn mn msg ts fs).errorsDir (errDestMeta pn ts) =
        lookupFile fs.importDir mn) ∧
    lookupFile (moveToErrors pn mn msg ts fs).errorsDir (errDestTxt pn ts) = some msg ∧
    errDestPuz pn ts ≠ errDestPuz pn ts2 ∧
    errDestMeta pn ts ≠ errDestMeta pn ts2 ∧
    errDestTxt pn ts ≠ errDestTxt pn ts2 := by
  have hfresh1 : errDestPuz pn ts ≠ errDestPuz pn ts2 := by
    unfold errDestPuz
    exact append_ne_of_left_ne _ (append_ne_of_right_ne _ hts)
  have hfresh2 : errDestMeta pn ts ≠ errDestMeta pn ts2 := by
    unfold errDestMeta
    exact append_ne_of_left_ne _ (append_ne_of_right_ne _ hts)
  have hfresh3 : errDestTxt pn ts ≠ errDestTxt pn ts2 := by
    unfold errDestTxt
    exact append_ne_of_left_ne _ (append_ne_of_right_ne _ hts)
  unfold moveToErrors
  simp only []
  cases hp : lookupFile fs.importDir pn with
  | some pc =>
    have hmn : lookupFile (removeFile fs.importDir pn) mn = lookupFile fs.importDir mn :=
      lookupFile_removeFile_ne _ _ _ (Ne.symm hne)
    cases hm : lookupFile fs.importDir mn with
    | some mc =>
      rw [hmn, hm]
      simp only []
      refine ⟨?_, ?_, ?_, ?_, ?_, hfresh1, hfresh2, hfresh3⟩
      · exact existsFile_removeFile_of_not _ _ _ (existsFile_removeFile_self _ _)
      · exact existsFile_removeFile_self _ _
      · intro _
        rw [lookupFile_putFile_ne _ _ _ _ (errDestPuz_ne_txt pn ts),
          lookupFile_putFile_ne _ _ _ _ (errDestPuz_ne_meta pn ts),
          lookupFile_putFile_self]
      · intro _
        rw [lookupFile_putFile_ne _ _ _ _ (errDestMeta_ne_txt pn ts),
          lookupFile_putFile_self]
      · rw [lookupFile_putFile_self]
    | none =>
      rw [hmn, hm]
      simp only []
      refine ⟨?_, ?_, ?_, ?_, ?_, hfresh1, hfresh2, hfresh3⟩
      · exact existsFile_removeFile_self _ _
      · rw [lookupFile_isSome_exists, hmn, hm]
        rfl
      · intro _
        rw [lookupFile_putFile_ne _ _ _ _ (errDestPuz_ne_txt pn ts),
          lookupFile_putFile_self]
      · intro hcontra
        exact absurd hcontra (by simp)
      · rw [lookupFile_putFile_self]
  | none =>
    cases hm : lookupFile fs.importDir mn with
    | some mc =>
      simp only []
      refine ⟨?_, ?_, ?_, ?_, ?_, hfresh1, hfresh2, hfresh3⟩
      · rw [lookupFile_isSome_exists, lookupFile_removeFile_ne _ _ _ hne, hp]
        rfl
      · exact existsFile_removeFile_self _ _
      · intro hcontra
        exact absurd hcontra (by simp)
      · intro _
        rw [lookupFile_putFile_ne _ _ _ _ (errDestMeta_ne_txt pn ts),
          lookupFile_putFile_self]
      · rw [lookupFile_putFile_self]
    | none =>
      simp only []
      refine ⟨?_, ?_, ?_, ?_, ?_, hfresh1, hfresh2, hfresh3⟩
      · rw [lookupFile_isSome_exists, hp]
        rfl
      · rw [lookupFile_isSome_exists, hm]
        rfl
      · intro hcontra
        exact absurd hcontra (by simp)
      · intro hcontra
        exact absurd hcontra (by simp)
      · rw [lookupFile_putFile_self]

/-- Witness for C4: quarantining a candidate whose primary file was already
consumed still moves the surviving sidecar to `errors/` and writes the
diagnostic, leaving `import/` empty. -/
theorem quarantine_relocates_and_clears_witness :
    existsFile (moveToErrors "puzzle1.puz" "puzzle1.meta.json" "boom" "t1"
      ⟨[⟨"puzzle1.meta.json", "M1"⟩], [], []⟩).importDir "puzzle1.meta.json" = false ∧
    lookupFile (moveToErrors "puzzle1.puz" "puzzle1.meta.json" "boom" "t1"
      ⟨[⟨"puzzle1.meta.json", "M1"⟩], [], []⟩).errorsDir
      (errDestMeta "puzzle1.puz" "t1") =
      lookupFile [⟨"puzzle1.meta.json", "M1"⟩] "puzzle1.meta.json" ∧
    lookupFile (moveToErrors "puzzle1.puz" "puzzle1.meta.json" "boom" "t1"
      ⟨[⟨"puzzle1.meta.json", "M1"⟩], [], []⟩).errorsDir
      (errDestTxt "puzzle1.puz" "t1") = some "boom" := by
  have h := quarantine_relocates_and_clears ⟨[⟨"puzzle1.meta.json", "M1"⟩], [], []⟩
    "puzzle1.puz" "puzzle1.meta.json" "boom" "t1" "t2" (by decide) (by decide)
  exact ⟨h.2.1, h.2.2.2.1 (by decide), h.2.2.2.2.1⟩

theorem processOne_success_eq (env : Env) (sid folder pn mn gid : String)
    (race : List PuzzleRow) (st : ProcState)
    (metaText pb : String) (md : MetaJson) (pd : PuzData) (pdate : PDate)
    (hmt : lookupFile st.fs.importDir mn = some metaText)
    (hjson : env.jsonLoad metaText = some md)
    (hdate : pyTruthy md.puzzle_date = true)
    (hpb : lookupFile st.fs.importDir pn = some pb)
    (hpuz : env.puzRead pb = some pd)
    (hdup : findDup st.catalog sid (env.hashHex pb) = none)
    (hiso : fromisoformat (md.puzzle_date.getD "") = some pdate)
    (hviol : violatesUnique (st.catalog ++ race) sid (env.hashHex pb) = false) :
    processOne env sid folder pn mn gid race st =
      ({ fs :=
          (match env.genPreview pb with
           | some pv =>
             { importDir := removeFile (removeFile st.fs.importDir pn) mn,
               puzzlesDir :=
                 putFile (putFile (putFile st.fs.puzzlesDir (gid ++ ".puz") pb)
                   (gid ++ ".meta.json") metaText) (gid ++ ".preview.png") pv,
               errorsDir := st.fs.errorsDir }
           | none =>
             { importDir := removeFile (removeFile st.fs.importDir pn) mn,
               puzzlesDir :=
                 putFile (putFile st.fs.puzzlesDir (gid ++ ".puz") pb)
                   (gid ++ ".meta.json") metaText,
               errorsDir := st.fs.errorsDir }),
         catalog := (st.catalog ++ race) ++
           [⟨gid, sid,
             (pyOr md.title (pyOr pd.title (some "Untitled"))).getD "Untitled",
             pyOr md.author pd.author, pdate, finalPathOf folder gid,
             env.hashHex pb⟩] },
       ProcOutcome.created gid) := by
  unfold processOne moveToPuzzles
  rw [hmt]
  simp only [hjson, hdate, Bool.not_true, Bool.false_eq_true, if_false, hpb, hpuz,
    hdup, hiso, hviol]

theorem processOne_dup_eq (env : Env) (sid folder pn mn gid : String)
    (race : List PuzzleRow) (st : ProcState)
    (metaText pb : String) (md : MetaJson) (pd : PuzData) (r : PuzzleRow)
    (hnm : pn ≠ mn)
    (hmt : lookupFile st.fs.importDir mn = some metaText)
    (hjson : env.jsonLoad metaText = some md)
    (hdate : pyTruthy md.puzzle_date = true)
    (hpb : lookupFile st.fs.importDir pn = some pb)
    (hpuz : env.puzRead pb = some pd)
    (hdup : findDup st.catalog sid (env.hashHex pb) = some r) :
    processOne env sid folder pn mn gid race st =
      ({ st with fs :=
          { st.fs with importDir := removeFile (removeFile st.fs.importDir pn) mn } },
       ProcOutcome.dupDeleted) := by
  have hex1 : existsFile st.fs.importDir pn = true := by
    rw [lookupFile_isSome_exists, hpb]
    rfl
  have hex2 : existsFile (removeFile st.fs.importDir pn) mn = true := by
    rw [lookupFile_isSome_exists, lookupFile_removeFile_ne _ _ _ (Ne.symm hnm), hmt]
    rfl
  unfold processOne
  rw [hmt]
  simp only [hjson, hdate, Bool.not_true, Bool.false_eq_true, if_false, hpb, hpuz,
    hdup, hex1, if_true, hex2]

theorem processOne_badDate_eq (env : Env) (sid folder pn mn gid : String)
    (race : List PuzzleRow) (st : ProcState)
    (metaText pb : String) (md : MetaJson) (pd : PuzData)
    (hmt : lookupFile st.fs.importDir mn = some metaText)
    (hjson : env.jsonLoad metaText = some md)
    (hdate : pyTruthy md.puzzle_date = true)
    (hpb : lookupFile st.fs.importDir pn = some pb)
    (hpuz : env.puzRead pb = some pd)
    (hdup : findDup st.catalog sid (env.hashHex pb) = none)
    (hiso : fromisoformat (md.puzzle_date.getD "") = none) :
    processOne env sid folder pn mn gid race st =
      (st, ProcOutcome.raised "Invalid isoformat string") := by
  unfold processOne
  rw [hmt]
  simp only [hjson, hdate, Bool.not_true, Bool.false_eq_true, if_false, hpb, hpuz,
    hdup, hiso]

/-! ## C3 — catalog writer success path -/

/-- C3: a successfully ingested non-duplicate candidate yields the
`created` outcome; the catalog gains exactly one row — an inserted row
with the empty file-path placeholder whose path was then updated to the
final location — the primary file and sidecar are renamed into `puzzles/`
as `<id>.puz` and `<id>.meta.json` with their contents preserved, the
row's stored path is that of the relocated primary file, the import
directory no longer contains the pair, and nothing is quarantined. -/
theorem catalog_writer_success (env : Env) (sid folder pn mn gid : String)
    (race : List PuzzleRow) (st : ProcState)
    (metaText pb : String) (md : MetaJson) (pd : PuzData) (pdate : PDate)
    (hmt : lookupFile st.fs.importDir mn = some metaText)
    (hjson : env.jsonLoad metaText = some md)
    (hdate : pyTruthy md.puzzle_date = true)
    (hpb : lookupFile st.fs.importDir pn = some pb)
    (hpuz : env.puzRead pb = some pd)
    (hdup : findDup st.catalog sid (env.hashHex pb) = none)
    (hiso : fromisoformat (md.puzzle_date.getD "") = some pdate)
    (hviol : violatesUnique (st.catalog ++ race) sid (env.hashHex pb) = false) :
    (processOne env sid folder pn mn gid race st).2 = ProcOutcome.created gid ∧
    (∃ row0 : PuzzleRow, row0.id = gid ∧ row0.file_path = "" ∧
      (processOne env sid folder pn mn gid race st).1.catalog =
        (st.catalog ++ race) ++ [{ row0 with file_path := finalPathOf folder gid }]) ∧
    lookupFile (processOne env sid folder pn mn gid race st).1.fs.puzzlesDir
      (gid ++ ".puz") = some pb ∧
    lookupFile (processOne env sid folder pn mn gid race st).1.fs.puzzlesDir
      (gid ++ ".meta.json") = some metaText ∧
    existsFile (processOne env sid folder pn mn gid race st).1.fs.importDir pn = false ∧
    existsFile (processOne env sid folder pn mn gid race st).1.fs.importDir mn = false ∧
    (processOne env sid folder pn mn gid race st).1.fs.errorsDir = st.fs.errorsDir := by
  rw [processOne_success_eq env sid folder pn mn gid race st metaText pb md pd pdate
    hmt hjson hdate hpb hpuz hdup hiso hviol]
  have hpm : gid ++ ".puz" ≠ gid ++ ".meta.json" := append_ne_of_right_ne _ (by decide)
  have hpp : gid ++ ".puz" ≠ gid ++ ".preview.png" := append_ne_of_right_ne _ (by decide)
  have hmp : gid ++ ".meta.json" ≠ gid ++ ".preview.png" :=
    append_ne_of_right_ne _ (by decide)
  cases hpv : env.genPreview pb with
  | some pv =>
    refine ⟨rfl,
      ⟨⟨gid, sid, (pyOr md.title (pyOr pd.title (some "Untitled"))).getD "Untitled",
        pyOr md.author pd.author, pdate, "", env.hashHex pb⟩, rfl, rfl, rfl⟩,
      ?_, ?_, ?_, ?_, rfl⟩
    · rw [lookupFile_putFile_ne _ _ _ _ hpp, lookupFile_putFile_ne _ _ _ _ hpm,
        lookupFile_putFile_self]
    · rw [lookupFile_putFile_ne _ _ _ _ hmp, lookupFile_putFile_self]
    · exact existsFile_removeFile_of_not _ _ _ (existsFile_removeFile_self _ _)
    · exact existsFile_removeFile_self _ _
  | none =>
    refine ⟨rfl,
      ⟨⟨gid, sid, (pyOr md.title (pyOr pd.title (some "Untitled"))).getD "Untitled",
        pyOr md.author pd.author, pdate, "", env.hashHex pb⟩, rfl, rfl, rfl⟩,
      ?_, ?_, ?_, ?_, rfl⟩
    · rw [lookupFile_putFile_ne _ _ _ _ hpm, lookupFile_putFile_self]
    · rw [lookupFile_putFile_self]
    · exact existsFile_removeFile_of_not _ _ _ (existsFile_removeFile_self _ _)
    · exact existsFile_removeFile_self _ _

/-- Witness for C3: ingesting `puzzle1.puz` + `puzzle1.meta.json` in a
fresh state creates the row and relocates both files. -/
theorem catalog_writer_success_witness :
    (processOne demoEnv "s1" "source-a" "puzzle1.puz" "puzzle1.meta.json" "id1" []
      ⟨⟨[⟨"puzzle1.puz", "PB"⟩, ⟨"puzzle1.meta.json", "M1"⟩], [], []⟩, []⟩).2 =
      ProcOutcome.created "id1" ∧
    (∃ row0 : PuzzleRow, row0.id = "id1" ∧ row0.file_path = "" ∧
      (processOne demoEnv "s1" "source-a" "puzzle1.puz" "puzzle1.meta.json" "id1" []
        ⟨⟨[⟨"puzzle1.puz", "PB"⟩, ⟨"puzzle1.meta.json", "M1"⟩], [], []⟩, []⟩).1.catalog =
        (([] : List PuzzleRow) ++ ([] : List PuzzleRow)) ++
          [{ row0 with file_path := finalPathOf "source-a" "id1" }]) ∧
    lookupFile (processOne demoEnv "s1" "source-a" "puzzle1.puz" "puzzle1.meta.json"
      "id1" [] ⟨⟨[⟨"puzzle1.puz", "PB"⟩, ⟨"puzzle1.meta.json", "M1"⟩], [], []⟩,
        []⟩).1.fs.puzzlesDir ("id1" ++ ".puz") = some "PB" ∧
    lookupFile (processOne demoEnv "s1" "source-a" "puzzle1.puz" "puzzle1.meta.json"
      "id1" [] ⟨⟨[⟨"puzzle1.puz", "PB"⟩, ⟨"puzzle1.meta.json", "M1"⟩], [], []⟩,
        []⟩).1.fs.puzzlesDir ("id1" ++ ".meta.json") = some "M1" ∧
    existsFile (processOne demoEnv "s1" "source-a" "puzzle1.puz" "puzzle1.meta.json"
      "id1" [] ⟨⟨[⟨"puzzle1.puz", "PB"⟩, ⟨"puzzle1.meta.json", "M1"⟩], [], []⟩,
        []⟩).1.fs.importDir "puzzle1.puz" = false ∧
    existsFile (processOne demoEnv "s1" "source-a" "puzzle1.puz" "puzzle1.meta.json"
      "id1" [] ⟨⟨[⟨"puzzle1.puz", "PB"⟩, ⟨"puzzle1.meta.json", "M1"⟩], [], []⟩,
        []⟩).1.fs.importDir "puzzle1.meta.json" = false ∧
    (processOne demoEnv "s1" "source-a" "puzzle1.puz" "puzzle1.meta.json" "id1" []
      ⟨⟨[⟨"puzzle1.puz", "PB"⟩, ⟨"puzzle1.meta.json", "M1"⟩], [], []⟩, []⟩).1.fs.errorsDir =
      ([] : List FileEntry) :=
  catalog_writer_success demoEnv "s1" "source-a" "puzzle1.puz" "puzzle1.meta.json"
    "id1" [] ⟨⟨[⟨"puzzle1.puz", "PB"⟩, ⟨"puzzle1.meta.json", "M1"⟩], [], []⟩, []⟩
    "M1" "PB" ⟨some "2025-01-01", some "Test", none⟩ ⟨some "PT", some "PA"⟩
    ⟨2025, 1, 1⟩ rfl rfl rfl rfl rfl rfl (by decide) rfl

theorem violatesUnique_false_of_findDup_none (cat : List PuzzleRow) (sid h : String)
    (hd : findDup cat sid h = none) : violatesUnique cat sid h = false := by
  unfold findDup at hd
  unfold violatesUnique
  rw [List.find?_eq_none] at hd
  rw [Bool.eq_false_iff]
  intro hany
  rw [List.any_eq_true] at hany
  obtain ⟨r, hr, hpr⟩ := hany
  exact hd r hr hpr

/-! ## C1 — idempotence of duplicate detection -/

/-- C1: after a first successful ingest of a primary file, the catalog
holds exactly one row for that `(source, fingerprint)`; a second ingest of
a byte-identical primary file for the same source hits the duplicate
check, deletes both of its own import files, performs no catalog mutation
and no quarantine, and returns the duplicate no-op outcome — the catalog
still holds exactly one row. -/
theorem duplicate_second_ingest_noop (env : Env) (sid folder : String)
    (pn1 mn1 gid1 pn2 mn2 gid2 : String) (st0 : ProcState)
    (metaText1 metaText2 pb : String) (md1 md2 : MetaJson) (pd1 : PuzData)
    (pdate1 : PDate)
    (hmt1 : lookupFile st0.fs.importDir mn1 = some metaText1)
    (hjson1 : env.jsonLoad metaText1 = some md1)
    (hdate1 : pyTruthy md1.puzzle_date = true)
    (hpb1 : lookupFile st0.fs.importDir pn1 = some pb)
    (hpuz1 : env.puzRead pb = some pd1)
    (h0dup : findDup st0.catalog sid (env.hashHex pb) = none)
    (hiso1 : fromisoformat (md1.puzzle_date.getD "") = some pdate1)
    (hpb2 : lookupFile st0.fs.importDir pn2 = some pb)
    (hmt2 : lookupFile st0.fs.importDir mn2 = some metaText2)
    (hjson2 : env.jsonLoad metaText2 = some md2)
    (hdate2 : pyTruthy md2.puzzle_date = true)
    (hpn2pn1 : pn2 ≠ pn1) (hpn2mn1 : pn2 ≠ mn1)
    (hmn2pn1 : mn2 ≠ pn1) (hmn2mn1 : mn2 ≠ mn1) (hpn2mn2 : pn2 ≠ mn2) :
    countMatching (processOne env sid folder pn1 mn1 gid1 [] st0).1.catalog sid
      (env.hashHex pb) = 1 ∧
    (processOne env sid folder pn2 mn2 gid2 []
      (processOne env sid folder pn1 mn1 gid1 [] st0).1).2 =
      ProcOutcome.dupDeleted ∧
    (processOne env sid folder pn2 mn2 gid2 []
      (processOne env sid folder pn1 mn1 gid1 [] st0).1).1.catalog =
      (processOne env sid folder pn1 mn1 gid1 [] st0).1.catalog ∧
    (processOne env sid folder pn2 mn2 gid2 []
      (processOne env sid folder pn1 mn1 gid1 [] st0).1).1.fs.errorsDir =
      (processOne env sid folder pn1 mn1 gid1 [] st0).1.fs.errorsDir ∧
    existsFile (processOne env sid folder pn2 mn2 gid2 []
      (processOne env sid folder pn1 mn1 gid1 [] st0).1).1.fs.importDir pn2 = false ∧
    existsFile (processOne env sid folder pn2 mn2 gid2 []
      (processOne env sid folder pn1 mn1 gid1 [] st0).1).1.fs.importDir mn2 = false ∧
    countMatching (processOne env sid folder pn2 mn2 gid2 []
      (processOne env sid folder pn1 mn1 gid1 [] st0).1).1.catalog sid
      (env.hashHex pb) = 1 := by
  have hviol0 : violatesUnique (st0.catalog ++ []) sid (env.hashHex pb) = false := by
    rw [List.append_nil]
    exact violatesUnique_false_of_findDup_none _ _ _ h0dup
  have hsucc := processOne_success_eq env sid folder pn1 mn1 gid1 [] st0 metaText1 pb
    md1 pd1 pdate1 hmt1 hjson1 hdate1 hpb1 hpuz1 h0dup hiso1 hviol0
  simp only [hsucc]
  cases hpv : env.genPreview pb with
  | some pv =>
    simp only []
    have hcnt : countMatching ((st0.catalog ++ []) ++
        [⟨gid1, sid, (pyOr md1.title (pyOr pd1.title (some "Untitled"))).getD "Untitled",
          pyOr md1.author pd1.author, pdate1, finalPathOf folder gid1,
          env.hashHex pb⟩]) sid (env.hashHex pb) = 1 := by
      rw [countMatching_append, List.append_nil]
      rw [findDup_none_count_zero _ _ _ h0dup]
      simp [countMatching]
    have hlpb2 : lookupFile (removeFile (removeFile st0.fs.importDir pn1) mn1) pn2 =
        some pb := by
      rw [lookupFile_removeFile_ne _ _ _ hpn2mn1, lookupFile_removeFile_ne _ _ _ hpn2pn1]
      exact hpb2
    have hlmt2 : lookupFile (removeFile (removeFile st0.fs.importDir pn1) mn1) mn2 =
        some metaText2 := by
      rw [lookupFile_removeFile_ne _ _ _ hmn2mn1, lookupFile_removeFile_ne _ _ _ hmn2pn1]
      exact hmt2
    have hdup2 : findDup ((st0.catalog ++ []) ++
        [⟨gid1, sid, (pyOr md1.title (pyOr pd1.title (some "Untitled"))).getD "Untitled",
          pyOr md1.author pd1.author, pdate1, finalPathOf folder gid1,
          env.hashHex pb⟩]) sid (env.hashHex pb) = some
        ⟨gid1, sid, (pyOr md1.title (pyOr pd1.title (some "Untitled"))).getD "Untitled",
          pyOr md1.author pd1.author, pdate1, finalPathOf folder gid1,
          env.hashHex pb⟩ := by
      rw [List.append_nil]
      exact findDup_append_singleton _ _ _ _ h0dup (by simp)
    have hd2 := processOne_dup_eq env sid folder pn2 mn2 gid2 []
      ⟨⟨removeFile (removeFile st0.fs.importDir pn1) mn1,
        putFile (putFile (putFile st0.fs.puzzlesDir (gid1 ++ ".puz") pb)
          (gid1 ++ ".meta.json") metaText1) (gid1 ++ ".preview.png") pv,
        st0.fs.errorsDir⟩,
       (st0.catalog ++ []) ++
         [⟨gid1, sid,
           (pyOr md1.title (pyOr pd1.title (some "Untitled"))).getD "Untitled",
           pyOr md1.author pd1.author, pdate1, finalPathOf folder gid1,
           env.hashHex pb⟩]⟩
      metaText2 pb md2 pd1
      ⟨gid1, sid, (pyOr md1.title (pyOr pd1.title (some "Untitled"))).getD "Untitled",
        pyOr md1.author pd1.author, pdate1, finalPathOf folder gid1, env.hashHex pb⟩
      hpn2mn2 hlmt2 hjson2 hdate2 hlpb2 hpuz1 hdup2
    rw [hd2]
    refine ⟨hcnt, rfl, rfl, rfl, ?_, ?_, hcnt⟩
    · exact existsFile_removeFile_of_not _ _ _ (existsFile_removeFile_self _ _)
    · exact existsFile_removeFile_self _ _
  | none =>
    simp only []
    have hcnt : countMatching ((st0.catalog ++ []) ++
        [⟨gid1, sid, (pyOr md1.title (pyOr pd1.title (some "Untitled"))).getD "Untitled",
          pyOr md1.author pd1.author, pdate1, finalPathOf folder gid1,
          env.hashHex pb⟩]) sid (env.hashHex pb) = 1 := by
      rw [countMatching_append, List.append_nil]
      rw [findDup_none_count_zero _ _ _ h0dup]
      simp [countMatching]
    have hlpb2 : lookupFile (removeFile (removeFile st0.fs.importDir pn1) mn1) pn2 =
        some pb := by
      rw [lookupFile_removeFile_ne _ _ _ hpn2mn1, lookupFile_removeFile_ne _ _ _ hpn2pn1]
      exact hpb2
    have hlmt2 : lookupFile (removeFile (removeFile st0.fs.importDir pn1) mn1) mn2 =
        some metaText2 := by
      rw [lookupFile_removeFile_ne _ _ _ hmn2mn1, lookupFile_removeFile_ne _ _ _ hmn2pn1]
      exact hmt2
    have hdup2 : findDup ((st0.catalog ++ []) ++
        [⟨gid1, sid, (pyOr md1.title (pyOr pd1.title (some "Untitled"))).getD "Untitled",
          pyOr md1.author pd1.author, pdate1, finalPathOf folder gid1,
          env.hashHex pb⟩]) sid (env.hashHex pb) = some
        ⟨gid1, sid, (pyOr md1.title (pyOr pd1.title (some "Untitled"))).getD "Untitled",
          pyOr md1.author pd1.author, pdate1, finalPathOf folder gid1,
          env.hashHex pb⟩ := by
      rw [List.append_nil]
      exact findDup_append_singleton _ _ _ _ h0dup (by simp)
    have hd2 := processOne_dup_eq env sid folder pn2 mn2 gid2 []
      ⟨⟨removeFile (removeFile st0.fs.importDir pn1) mn1,
        putFile (putFile st0.fs.puzzlesDir (gid1 ++ ".puz") pb)
          (gid1 ++ ".meta.json") metaText1,
        st0.fs.errorsDir⟩,
       (st0.catalog ++ []) ++
         [⟨gid1, sid,
           (pyOr md1.title (pyOr pd1.title (some "Untitled"))).getD "Untitled",
           pyOr md1.author pd1.author, pdate1, finalPathOf folder gid1,
           env.hashHex pb⟩]⟩
      metaText2 pb md2 pd1
      ⟨gid1, sid, (pyOr md1.title (pyOr pd1.title (some "Untitled"))).getD "Untitled",
        pyOr md1.author pd1.author, pdate1, finalPathOf folder gid1, env.hashHex pb⟩
      hpn2mn2 hlmt2 hjson2 hdate2 hlpb2 hpuz1 hdup2
    rw [hd2]
    refine ⟨hcnt, rfl, rfl, rfl, ?_, ?_, hcnt⟩
    · exact existsFile_removeFile_of_not _ _ _ (existsFile_removeFile_self _ _)
    · exact existsFile_removeFile_self _ _

/-- Witness for C1: re-ingesting a byte-identical primary under a new name
after a successful first ingest is a no-op that still leaves one catalog
row. -/
theorem duplicate_second_ingest_noop_witness :
    countMatching (processOne demoEnv "s1" "source-a" "puzzle1.puz"
      "puzzle1.meta.json" "id1" []
      ⟨⟨[⟨"puzzle1.puz", "PB"⟩, ⟨"puzzle1.meta.json", "M1"⟩,
         ⟨"puzzle1b.puz", "PB"⟩, ⟨"puzzle1b.meta.json", "M1"⟩], [], []⟩,
        []⟩).1.catalog "s1" (demoEnv.hashHex "PB") = 1 ∧
    (processOne demoEnv "s1" "source-a" "puzzle1b.puz" "puzzle1b.meta.json" "id2" []
      (processOne demoEnv "s1" "source-a" "puzzle1.puz" "puzzle1.meta.json" "id1" []
        ⟨⟨[⟨"puzzle1.puz", "PB"⟩, ⟨"puzzle1.meta.json", "M1"⟩,
           ⟨"puzzle1b.puz", "PB"⟩, ⟨"puzzle1b.meta.json", "M1"⟩], [], []⟩, []⟩).1).2 =
      ProcOutcome.dupDeleted ∧
    (processOne demoEnv "s1" "source-a" "puzzle1b.puz" "puzzle1b.meta.json" "id2" []
      (processOne demoEnv "s1" "source-a" "puzzle1.puz" "puzzle1.meta.json" "id1" []
        ⟨⟨[⟨"puzzle1.puz", "PB"⟩, ⟨"puzzle1.meta.json", "M1"⟩,
           ⟨"puzzle1b.puz", "PB"⟩, ⟨"puzzle1b.meta.json", "M1"⟩], [], []⟩,
          []⟩).1).1.catalog =
      (processOne demoEnv "s1" "source-a" "puzzle1.puz" "puzzle1.meta.json" "id1" []
        ⟨⟨[⟨"puzzle1.puz", "PB"⟩, ⟨"puzzle1.meta.json", "M1"⟩,
           ⟨"puzzle1b.puz", "PB"⟩, ⟨"puzzle1b.meta.json", "M1"⟩], [], []⟩,
          []⟩).1.catalog ∧
    (processOne demoEnv "s1" "source-a" "puzzle1b.puz" "puzzle1b.meta.json" "id2" []
      (processOne demoEnv "s1" "source-a" "puzzle1.puz" "puzzle1.meta.json" "id1" []
        ⟨⟨[⟨"puzzle1.puz", "PB"⟩, ⟨"puzzle1.meta.json", "M1"⟩,
           ⟨"puzzle1b.puz", "PB"⟩, ⟨"puzzle1b.meta.json", "M1"⟩], [], []⟩,
          []⟩).1).1.fs.errorsDir =
      (processOne demoEnv "s1" "source-a" "puzzle1.puz" "puzzle1.meta.json" "id1" []
        ⟨⟨[⟨"puzzle1.puz", "PB"⟩, ⟨"puzzle1.meta.json", "M1"⟩,
           ⟨"puzzle1b.puz", "PB"⟩, ⟨"puzzle1b.meta.json", "M1"⟩], [], []⟩,
          []⟩).1.fs.errorsDir ∧
    existsFile (processOne demoEnv "s1" "source-a" "puzzle1b.puz" "puzzle1b.meta.json"
      "id2" []
      (processOne demoEnv "s1" "source-a" "puzzle1.puz" "puzzle1.meta.json" "id1" []
        ⟨⟨[⟨"puzzle1.puz", "PB"⟩, ⟨"puzzle1.meta.json", "M1"⟩,
           ⟨"puzzle1b.puz", "PB"⟩, ⟨"puzzle1b.meta.json", "M1"⟩], [], []⟩,
          []⟩).1).1.fs.importDir "puzzle1b.puz" = false ∧
    existsFile (processOne demoEnv "s1" "source-a" "puzzle1b.puz" "puzzle1b.meta.json"
      "id2" []
      (processOne demoEnv "s1" "source-a" "puzzle1.puz" "puzzle1.meta.json" "id1" []
        ⟨⟨[⟨"puzzle1.puz", "PB"⟩, ⟨"puzzle1.meta.json", "M1"⟩,
           ⟨"puzzle1b.puz", "PB"⟩, ⟨"puzzle1b.meta.json", "M1"⟩], [], []⟩,
          []⟩).1).1.fs.importDir "puzzle1b.meta.json" = false ∧
    countMatching (processOne demoEnv "s1" "source-a" "puzzle1b.puz"
      "puzzle1b.meta.json" "id2" []
      (processOne demoEnv "s1" "source-a" "puzzle1.puz" "puzzle1.meta.json" "id1" []
        ⟨⟨[⟨"puzzle1.puz", "PB"⟩, ⟨"puzzle1.meta.json", "M1"⟩,
           ⟨"puzzle1b.puz", "PB"⟩, ⟨"puzzle1b.meta.json", "M1"⟩], [], []⟩,
          []⟩).1).1.catalog "s1" (demoEnv.hashHex "PB") = 1 :=
  duplicate_second_ingest_noop demoEnv "s1" "source-a" "puzzle1.puz"
    "puzzle1.meta.json" "id1" "puzzle1b.puz" "puzzle1b.meta.json" "id2"
    ⟨⟨[⟨"puzzle1.puz", "PB"⟩, ⟨"puzzle1.meta.json", "M1"⟩,
       ⟨"puzzle1b.puz", "PB"⟩, ⟨"puzzle1b.meta.json", "M1"⟩], [], []⟩, []⟩
    "M1" "M1" "PB" ⟨some "2025-01-01", some "Test", none⟩
    ⟨some "2025-01-01", some "Test", none⟩ ⟨some "PT", some "PA"⟩ ⟨2025, 1, 1⟩
    rfl rfl rfl rfl rfl rfl (by decide) rfl rfl rfl rfl
    (by decide) (by decide) (by decide) (by decide) (by decide)

/-! ## C9 — duplicate detection precedes date validation -/

/-- C9: for a candidate whose sidecar carries a non-empty but malformed
`puzzle_date`, the outcome depends only on the duplicate check, which runs
before the ISO date parse: when the catalog already holds a row for
`(source, fingerprint)` the candidate's files are deleted and the run ends
as the duplicate no-op (no quarantine, no catalog change); on a
non-duplicate catalog the date parse raises, and the batch loop quarantines
the candidate. -/
theorem duplicate_precedes_date_validation (env : Env) (sid folder pn mn gid : String)
    (race : List PuzzleRow) (stDup stNew : ProcState)
    (metaText pb : String) (md : MetaJson) (pd : PuzData) (r : PuzzleRow)
    (ids tss : Nat → String) (races : Nat → List PuzzleRow)
    (hnm : pn ≠ mn)
    (hjson : env.jsonLoad metaText = some md)
    (hdate : pyTruthy md.puzzle_date = true)
    (hbad : fromisoformat (md.puzzle_date.getD "") = none)
    (hpuz : env.puzRead pb = some pd)
    (hmtD : lookupFile stDup.fs.importDir mn = some metaText)
    (hpbD : lookupFile stDup.fs.importDir pn = some pb)
    (hdupD : findDup stDup.catalog sid (env.hashHex pb) = some r)
    (hmtN : lookupFile stNew.fs.importDir mn = some metaText)
    (hpbN : lookupFile stNew.fs.importDir pn = some pb)
    (hdupN : findDup stNew.catalog sid (env.hashHex pb) = none)
    (hready : findReadyPairs stNew.fs.importDir = [(pn, mn)]) :
    processOne env sid folder pn mn gid race stDup =
      ({ stDup with fs := { stDup.fs with
          importDir := removeFile (removeFile stDup.fs.importDir pn) mn } },
        ProcOutcome.dupDeleted) ∧
    processOne env sid folder pn mn gid race stNew =
      (stNew, ProcOutcome.raised "Invalid isoformat string") ∧
    processSource env sid folder ids tss races stNew =
      { stNew with fs :=
          moveToErrors pn mn "Invalid isoformat string" (tss 0) stNew.fs } := by
  refine ⟨processOne_dup_eq env sid folder pn mn gid race stDup metaText pb md pd r
    hnm hmtD hjson hdate hpbD hpuz hdupD,
    processOne_badDate_eq env sid folder pn mn gid race stNew metaText pb md pd
      hmtN hjson hdate hpbN hpuz hdupN hbad, ?_⟩
  unfold processSource
  rw [hready]
  simp only [List.enum, List.enumFrom, List.foldl]
  unfold processStep
  rw [processOne_badDate_eq env sid folder pn mn (ids 0) (races 0) stNew metaText pb
    md pd hmtN hjson hdate hpbN hpuz hdupN hbad]

/-- Witness for C9: the sidecar date `"not-a-date"` is deleted as a
duplicate when the fingerprint is already catalogued, and quarantined when
it is not. -/
theorem duplicate_precedes_date_validation_witness :
    processOne demoEnv "s1" "source-a" "puzzle1.puz" "puzzle1.meta.json" "id1" []
      ⟨⟨[⟨"puzzle1.puz", "PB"⟩, ⟨"puzzle1.meta.json", "MBAD"⟩], [], []⟩,
       [⟨"id0", "s1", "T", none, ⟨2025, 1, 1⟩, "p", "PB#sha"⟩]⟩ =
      ({ fs := ⟨removeFile (removeFile
            [⟨"puzzle1.puz", "PB"⟩, ⟨"puzzle1.meta.json", "MBAD"⟩] "puzzle1.puz")
            "puzzle1.meta.json", [], []⟩,
         catalog := [⟨"id0", "s1", "T", none, ⟨2025, 1, 1⟩, "p", "PB#sha"⟩] },
        ProcOutcome.dupDeleted) ∧
    processOne demoEnv "s1" "source-a" "puzzle1.puz" "puzzle1.meta.json" "id1" []
      ⟨⟨[⟨"puzzle1.puz", "PB"⟩, ⟨"puzzle1.meta.json", "MBAD"⟩], [], []⟩, []⟩ =
      (⟨⟨[⟨"puzzle1.puz", "PB"⟩, ⟨"puzzle1.meta.json", "MBAD"⟩], [], []⟩, []⟩,
        ProcOutcome.raised "Invalid isoformat string") ∧
    processSource demoEnv "s1" "source-a" (fun _ => "id1") (fun _ => "ts0")
        (fun _ => [])
      ⟨⟨[⟨"puzzle1.puz", "PB"⟩, ⟨"puzzle1.meta.json", "MBAD"⟩], [], []⟩, []⟩ =
      { fs := moveToErrors "puzzle1.puz" "puzzle1.meta.json"
          "Invalid isoformat string" "ts0"
          ⟨[⟨"puzzle1.puz", "PB"⟩, ⟨"puzzle1.meta.json", "MBAD"⟩], [], []⟩,
        catalog := [] } :=
  duplicate_precedes_date_validation demoEnv "s1" "source-a" "puzzle1.puz"
    "puzzle1.meta.json" "id1" []
    ⟨⟨[⟨"puzzle1.puz", "PB"⟩, ⟨"puzzle1.meta.json", "MBAD"⟩], [], []⟩,
     [⟨"id0", "s1", "T", none, ⟨2025, 1, 1⟩, "p", "PB#sha"⟩]⟩
    ⟨⟨[⟨"puzzle1.puz", "PB"⟩, ⟨"puzzle1.meta.json", "MBAD"⟩], [], []⟩, []⟩
    "MBAD" "PB" ⟨some "not-a-date", some "Bad", none⟩ ⟨some "PT", some "PA"⟩
    ⟨"id0", "s1", "T", none, ⟨2025, 1, 1⟩, "p", "PB#sha"⟩
    (fun _ => "id1") (fun _ => "ts0") (fun _ => [])
    (by decide) rfl rfl (by decide) rfl rfl rfl rfl rfl rfl rfl (by decide)

/-! ## C8 — folder-name fallback and stored paths -/

/-- C8: `folder_name` resolves to the source's id when no short code is
set and to the short code once a non-empty one is set (so only future path
resolution changes, and the source keeps its identity); a successful
ingest stamps the new row's stored file path from the folder name in
effect at ingest time, while every row already in the catalog — with its
stored file path — is carried over unchanged. -/
theorem folder_name_resolution_and_paths (s : SourceRec) (c : String) (hc : c ≠ "")
    (env : Env) (sid pn mn gid : String) (race : List PuzzleRow) (st : ProcState)
    (metaText pb : String) (md : MetaJson) (pd : PuzData) (pdate : PDate)
    (hmt : lookupFile st.fs.importDir mn = some metaText)
    (hjson : env.jsonLoad metaText = some md)
    (hdate : pyTruthy md.puzzle_date = true)
    (hpb : lookupFile st.fs.importDir pn = some pb)
    (hpuz : env.puzRead pb = some pd)
    (hdup : findDup st.catalog sid (env.hashHex pb) = none)
    (hiso : fromisoformat (md.puzzle_date.getD "") = some pdate)
    (hviol : violatesUnique (st.catalog ++ race) sid (env.hashHex pb) = false) :
    (s.short_code = none → folder_name s = s.id) ∧
    folder_name (setShortCode s c) = c ∧
    (setShortCode s c).id = s.id ∧
    (∀ r ∈ st.catalog,
      r ∈ (processOne env sid (folder_name s) pn mn gid race st).1.catalog) ∧
    (∃ row : PuzzleRow,
      (processOne env sid (folder_name s) pn mn gid race st).1.catalog =
        (st.catalog ++ race) ++ [row] ∧
      row.file_path = finalPathOf (folder_name s) gid) := by
  rw [processOne_success_eq env sid (folder_name s) pn mn gid race st metaText pb
    md pd pdate hmt hjson hdate hpb hpuz hdup hiso hviol]
  refine ⟨?_, ?_, rfl, ?_, ?_⟩
  · intro hnone
    unfold folder_name
    rw [hnone]
    rfl
  · unfold folder_name setShortCode pyTruthy
    simp [hc]
  · intro r hr
    simp only []
    exact List.mem_append_left _ (List.mem_append_left _ hr)
  · exact ⟨⟨gid, sid,
      (pyOr md.title (pyOr pd.title (some "Untitled"))).getD "Untitled",
      pyOr md.author pd.author, pdate, finalPathOf (folder_name s) gid,
      env.hashHex pb⟩, rfl, rfl⟩

/-- Witness for C8: a source with no short code resolves to its id; after
`setShortCode` it resolves to the short code; an ingest under the id-named
folder stamps the row's path from that folder and preserves the existing
row. -/
theorem folder_name_resolution_and_paths_witness :
    ((⟨"uuid-1", none⟩ : SourceRec).short_code = none →
      folder_name ⟨"uuid-1", none⟩ = (⟨"uuid-1", none⟩ : SourceRec).id) ∧
    folder_name (setShortCode ⟨"uuid-1", none⟩ "source-a") = "source-a" ∧
    (setShortCode ⟨"uuid-1", none⟩ "source-a").id = (⟨"uuid-1", none⟩ : SourceRec).id ∧
    (∀ r ∈ [⟨"id0", "s1", "T", none, ⟨2025, 1, 1⟩, "old/puzzles/id0.puz", "OLD#sha"⟩],
      r ∈ (processOne demoEnv "s1" (folder_name ⟨"uuid-1", none⟩) "puzzle1.puz"
        "puzzle1.meta.json" "id1" []
        ⟨⟨[⟨"puzzle1.puz", "PB"⟩, ⟨"puzzle1.meta.json", "M1"⟩], [], []⟩,
         [⟨"id0", "s1", "T", none, ⟨2025, 1, 1⟩, "old/puzzles/id0.puz",
           "OLD#sha"⟩]⟩).1.catalog) ∧
    (∃ row : PuzzleRow,
      (processOne demoEnv "s1" (folder_name ⟨"uuid-1", none⟩) "puzzle1.puz"
        "puzzle1.meta.json" "id1" []
        ⟨⟨[⟨"puzzle1.puz", "PB"⟩, ⟨"puzzle1.meta.json", "M1"⟩], [], []⟩,
         [⟨"id0", "s1", "T", none, ⟨2025, 1, 1⟩, "old/puzzles/id0.puz",
           "OLD#sha"⟩]⟩).1.catalog =
        ([⟨"id0", "s1", "T", none, ⟨2025, 1, 1⟩, "old/puzzles/id0.puz", "OLD#sha"⟩] ++
          ([] : List PuzzleRow)) ++ [row] ∧
      row.file_path = finalPathOf (folder_name ⟨"uuid-1", none⟩) "id1") :=
  folder_name_resolution_and_paths ⟨"uuid-1", none⟩ "source-a" (by decide)
    demoEnv "s1" "puzzle1.puz" "puzzle1.meta.json" "id1" []
    ⟨⟨[⟨"puzzle1.puz", "PB"⟩, ⟨"puzzle1.meta.json", "M1"⟩], [], []⟩,
     [⟨"id0", "s1", "T", none, ⟨2025, 1, 1⟩, "old/puzzles/id0.puz", "OLD#sha"⟩]⟩
    "M1" "PB" ⟨some "2025-01-01", some "Test", none⟩ ⟨some "PT", some "PA"⟩
    ⟨2025, 1, 1⟩ rfl rfl rfl rfl rfl (by decide) (by decide) (by decide)

theorem processOne_constraint_eq (env : Env) (sid folder pn mn gid : String)
    (race : List PuzzleRow) (st : ProcState)
    (metaText pb : String) (md : MetaJson) (pd : PuzData) (pdate : PDate)
    (hmt : lookupFile st.fs.importDir mn = some metaText)
    (hjson : env.jsonLoad metaText = some md)
    (hdate : pyTruthy md.puzzle_date = true)
    (hpb : lookupFile st.fs.importDir pn = some pb)
    (hpuz : env.puzRead pb = some pd)
    (hdup : findDup st.catalog sid (env.hashHex pb) = none)
    (hiso : fromisoformat (md.puzzle_date.getD "") = some pdate)
    (hviol : violatesUnique (st.catalog ++ race) sid (env.hashHex pb) = true) :
    processOne env sid folder pn mn gid race st =
      ({ st with catalog := st.catalog ++ race },
        ProcOutcome.raised "UNIQUE constraint failed: uq_source_file_hash") := by
  unfold processOne
  rw [hmt]
  simp only [hjson, hdate, Bool.not_true, Bool.false_eq_true, if_false, hpb, hpuz,
    hdup, hiso, hviol, if_true]

/-! ## C2 — write-race constraint violation (corrected) -/

/-- Counterexample to C2: a candidate that passes the duplicate check but
whose commit hits the `(source_id, file_hash)` uniqueness constraint —
because a concurrent pass committed the same fingerprint in between — ends
with the raised constraint violation, both import files still present
(nothing deleted), and the batch loop routes the files into `errors/`
(quarantine), not the deletion-and-success path the claim describes. -/
theorem race_loser_not_deleted_counterexample :
    (processOne demoEnv "s1" "source-a" "puzzle1.puz" "puzzle1.meta.json" "id1"
      [⟨"idX", "s1", "T", none, ⟨2025, 1, 1⟩, "x/puzzles/idX.puz", "PB#sha"⟩]
      ⟨⟨[⟨"puzzle1.puz", "PB"⟩, ⟨"puzzle1.meta.json", "M1"⟩], [], []⟩, []⟩).2 =
      ProcOutcome.raised "UNIQUE constraint failed: uq_source_file_hash" ∧
    existsFile (processOne demoEnv "s1" "source-a" "puzzle1.puz" "puzzle1.meta.json"
      "id1" [⟨"idX", "s1", "T", none, ⟨2025, 1, 1⟩, "x/puzzles/idX.puz", "PB#sha"⟩]
      ⟨⟨[⟨"puzzle1.puz", "PB"⟩, ⟨"puzzle1.meta.json", "M1"⟩], [], []⟩,
        []⟩).1.fs.importDir "puzzle1.puz" = true ∧
    existsFile (processOne demoEnv "s1" "source-a" "puzzle1.puz" "puzzle1.meta.json"
      "id1" [⟨"idX", "s1", "T", none, ⟨2025, 1, 1⟩, "x/puzzles/idX.puz", "PB#sha"⟩]
      ⟨⟨[⟨"puzzle1.puz", "PB"⟩, ⟨"puzzle1.meta.json", "M1"⟩], [], []⟩,
        []⟩).1.fs.importDir "puzzle1.meta.json" = true ∧
    existsFile (processSource demoEnv "s1" "source-a" (fun _ => "id1")
      (fun _ => "ts0")
      (fun _ => [⟨"idX", "s1", "T", none, ⟨2025, 1, 1⟩, "x/puzzles/idX.puz",
        "PB#sha"⟩])
      ⟨⟨[⟨"puzzle1.puz", "PB"⟩, ⟨"puzzle1.meta.json", "M1"⟩], [], []⟩,
        []⟩).fs.errorsDir (errDestTxt "puzzle1.puz" "ts0") = true ∧
    existsFile (processSource demoEnv "s1" "source-a" (fun _ => "id1")
      (fun _ => "ts0")
      (fun _ => [⟨"idX", "s1", "T", none, ⟨2025, 1, 1⟩, "x/puzzles/idX.puz",
        "PB#sha"⟩])
      ⟨⟨[⟨"puzzle1.puz", "PB"⟩, ⟨"puzzle1.meta.json", "M1"⟩], [], []⟩,
        []⟩).fs.importDir "puzzle1.puz" = false :=
  ⟨rfl, rfl, rfl, rfl, rfl⟩

/-- C2 amended: when the commit of a race-losing candidate fires the
`(source_id, file_hash)` uniqueness constraint, `_process_one` raises the
constraint violation — it does not convert it into the duplicate
deletion-and-success path — and the batch loop treats it as a fatal
per-candidate failure, quarantining the import files into `errors/`. -/
theorem race_loser_quarantined (env : Env) (sid folder gid pn mn : String)
    (ids tss : Nat → String) (races : Nat → List PuzzleRow) (st : ProcState)
    (metaText pb : String) (md : MetaJson) (pd : PuzData) (pdate : PDate)
    (hmt : lookupFile st.fs.importDir mn = some metaText)
    (hjson : env.jsonLoad metaText = some md)
    (hdate : pyTruthy md.puzzle_date = true)
    (hpb : lookupFile st.fs.importDir pn = some pb)
    (hpuz : env.puzRead pb = some pd)
    (hdup : findDup st.catalog sid (env.hashHex pb) = none)
    (hiso : fromisoformat (md.puzzle_date.getD "") = some pdate)
    (hviol : violatesUnique (st.catalog ++ races 0) sid (env.hashHex pb) = true)
    (hready : findReadyPairs st.fs.importDir = [(pn, mn)]) :
    processOne env sid folder pn mn gid (races 0) st =
      ({ st with catalog := st.catalog ++ races 0 },
        ProcOutcome.raised "UNIQUE constraint failed: uq_source_file_hash") ∧
    processSource env sid folder ids tss races st =
      { fs := moveToErrors pn mn "UNIQUE constraint failed: uq_source_file_hash"
          (tss 0) st.fs,
        catalog := st.catalog ++ races 0 } := by
  refine ⟨processOne_constraint_eq env sid folder pn mn gid (races 0) st metaText pb
    md pd pdate hmt hjson hdate hpb hpuz hdup hiso hviol, ?_⟩
  unfold processSource
  rw [hready]
  simp only [List.enum, List.enumFrom, List.foldl]
  unfold processStep
  rw [processOne_constraint_eq env sid folder pn mn (ids 0) (races 0) st metaText pb
    md pd pdate hmt hjson hdate hpb hpuz hdup hiso hviol]

/-- Witness for the amended C2: the concrete race of the counterexample is
quarantined. -/
theorem race_loser_quarantined_witness :
    processOne demoEnv "s1" "source-a" "puzzle1.puz" "puzzle1.meta.json" "id1"
      ((fun _ => [⟨"idX", "s1", "T", none, ⟨2025, 1, 1⟩, "x/puzzles/idX.puz",
        "PB#sha"⟩]) 0)
      ⟨⟨[⟨"puzzle1.puz", "PB"⟩, ⟨"puzzle1.meta.json", "M1"⟩], [], []⟩, []⟩ =
      ({ fs := ⟨[⟨"puzzle1.puz", "PB"⟩, ⟨"puzzle1.meta.json", "M1"⟩], [], []⟩,
         catalog := ([] : List PuzzleRow) ++
           [⟨"idX", "s1", "T", none, ⟨2025, 1, 1⟩, "x/puzzles/idX.puz", "PB#sha"⟩] },
        ProcOutcome.raised "UNIQUE constraint failed: uq_source_file_hash") ∧
    processSource demoEnv "s1" "source-a" (fun _ => "id1") (fun _ => "ts0")
      (fun _ => [⟨"idX", "s1", "T", none, ⟨2025, 1, 1⟩, "x/puzzles/idX.puz",
        "PB#sha"⟩])
      ⟨⟨[⟨"puzzle1.puz", "PB"⟩, ⟨"puzzle1.meta.json", "M1"⟩], [], []⟩, []⟩ =
      { fs := moveToErrors "puzzle1.puz" "puzzle1.meta.json"
          "UNIQUE constraint failed: uq_source_file_hash" "ts0"
          ⟨[⟨"puzzle1.puz", "PB"⟩, ⟨"puzzle1.meta.json", "M1"⟩], [], []⟩,
        catalog := ([] : List PuzzleRow) ++
          [⟨"idX", "s1", "T", none, ⟨2025, 1, 1⟩, "x/puzzles/idX.puz", "PB#sha"⟩] } :=
  race_loser_quarantined demoEnv "s1" "source-a" "id1" "puzzle1.puz"
    "puzzle1.meta.json" (fun _ => "id1") (fun _ => "ts0")
    (fun _ => [⟨"idX", "s1", "T", none, ⟨2025, 1, 1⟩, "x/puzzles/idX.puz", "PB#sha"⟩])
    ⟨⟨[⟨"puzzle1.puz", "PB"⟩, ⟨"puzzle1.meta.json", "M1"⟩], [], []⟩, []⟩
    "M1" "PB" ⟨some "2025-01-01", some "Test", none⟩ ⟨some "PT", some "PA"⟩
    ⟨2025, 1, 1⟩ rfl rfl rfl rfl rfl rfl (by decide) rfl (by decide)

/-! ## C5 — batch isolation and the quarantine handler (corrected) -/

theorem moveToErrorsChecked_ok (pn mn msg ts : String) (fs : SourceFS) :
    moveToErrorsChecked (fun _ => true) pn mn msg ts fs =
      Except.ok (moveToErrors pn mn msg ts fs) := by
  unfold moveToErrorsChecked moveToErrors
  cases h1 : lookupFile fs.importDir pn with
  | some pc =>
    dsimp only
    cases h2 : lookupFile (removeFile fs.importDir pn) mn with
    | some mc => rfl
    | none => rfl
  | none =>
    dsimp only
    cases h2 : lookupFile fs.importDir mn with
    | some mc => rfl
    | none => rfl

/-- Counterexample to C5: with a first candidate that fails validation and
a quarantine whose filesystem move fails, the quarantine exception escapes
the batch loop — the failing candidate stays in `import/`, and the
perfectly valid second candidate is never processed (no catalog row). -/
theorem quarantine_failure_aborts_batch_counterexample :
    (processSourceChecked demoEnv (fun _ => false) "s1" "source-a" (fun _ => "id1")
      (fun _ => "ts0") (fun _ => [])
      ⟨⟨[⟨"bad.puz", "PB"⟩, ⟨"bad.meta.json", "MNODATE"⟩,
         ⟨"good.puz", "PB"⟩, ⟨"good.meta.json", "M1"⟩], [], []⟩, []⟩).2 =
      some "quarantine move failed" ∧
    existsFile (processSourceChecked demoEnv (fun _ => false) "s1" "source-a"
      (fun _ => "id1") (fun _ => "ts0") (fun _ => [])
      ⟨⟨[⟨"bad.puz", "PB"⟩, ⟨"bad.meta.json", "MNODATE"⟩,
         ⟨"good.puz", "PB"⟩, ⟨"good.meta.json", "M1"⟩], [], []⟩,
        []⟩).1.fs.importDir "bad.puz" = true ∧
    existsFile (processSourceChecked demoEnv (fun _ => false) "s1" "source-a"
      (fun _ => "id1") (fun _ => "ts0") (fun _ => [])
      ⟨⟨[⟨"bad.puz", "PB"⟩, ⟨"bad.meta.json", "MNODATE"⟩,
         ⟨"good.puz", "PB"⟩, ⟨"good.meta.json", "M1"⟩], [], []⟩,
        []⟩).1.fs.importDir "good.puz" = true ∧
    (processSourceChecked demoEnv (fun _ => false) "s1" "source-a"
      (fun _ => "id1") (fun _ => "ts0") (fun _ => [])
      ⟨⟨[⟨"bad.puz", "PB"⟩, ⟨"bad.meta.json", "MNODATE"⟩,
         ⟨"good.puz", "PB"⟩, ⟨"good.meta.json", "M1"⟩], [], []⟩,
        []⟩).1.catalog = [] :=
  ⟨rfl, rfl, rfl, rfl⟩

/-- C5 amended: every per-candidate processing exception is caught at the
per-candidate boundary and routed to quarantine, and as long as the
quarantine filesystem operations themselves succeed no candidate's failure
aborts the rest of the batch (the fallible batch model then coincides with
the plain one and no exception escapes); but `_move_to_errors` contains no
exception handling of its own, so a failing quarantine operation
propagates out of the batch loop, as the counterexample shows. -/
theorem batch_survives_when_quarantine_succeeds (env : Env) (sid folder : String)
    (ids tss : Nat → String) (races : Nat → List PuzzleRow) (st : ProcState) :
    (processSourceChecked env (fun _ => true) sid folder ids tss races st).2 = none ∧
    (processSourceChecked env (fun _ => true) sid folder ids tss races st).1 =
      processSource env sid folder ids tss races st := by
  have hstep : ∀ (a : ProcState) (p : Nat × (String × String)),
      processStepChecked env (fun _ => true) sid folder ids tss races (a, none) p =
        (processStep env sid folder ids tss races a p, none) := by
    intro a p
    unfold processStepChecked processStep
    dsimp only
    cases hpo : processOne env sid folder p.2.1 p.2.2 (ids p.1) (races p.1) a with
    | mk st2 out =>
      cases out with
      | raised e =>
        dsimp only
        rw [moveToErrorsChecked_ok]
      | dupDeleted => rfl
      | created g => rfl
  have hfold : ∀ (L : List (Nat × (String × String))) (a : ProcState),
      L.foldl (processStepChecked env (fun _ => true) sid folder ids tss races)
        (a, none) =
        (L.foldl (processStep env sid folder ids tss races) a, none) := by
    intro L
    induction L with
    | nil => intro a; rfl
    | cons p t ih =>
      intro a
      rw [List.foldl_cons, List.foldl_cons, hstep]
      exact ih _
  unfold processSourceChecked processSource
  rw [hfold]
  exact ⟨rfl, rfl⟩

end PuzzleVault
